import Mathlib

/-!
Shallow embedding of the AI contribution-validation action
(`src/ai/gemini-client.ts`, `src/core/validator.ts`, `src/core/formatter.ts`,
`src/github/client.ts`) in Lean 4, together with theorems settling the
spec claims about it.

Modelling conventions:
* JavaScript strings are modelled by Lean `String` (a sequence of Unicode
  scalar values); `s.length` is modelled by `String.length`, and
  `s.split(',')`, `s.trim()`, `s.substring(0, n)` by the structurally
  recursive `jsSplitComma`, `jsTrim` and `List.take` on the character
  data, matching the JavaScript semantics character-for-character.
* JavaScript numbers are modelled by `ℚ` where fractional values occur
  (token counts computed as `prompt.length / 4`), and by `Nat` where the
  source only ever holds non-negative integers (diff line counts,
  millisecond delays).
* `async` functions that can reject are embedded as functions returning
  `Except String α` (the `String` is the thrown `Error`'s message);
  external network calls are embedded as oracle parameters describing the
  outcome each call would produce, and the embedding additionally returns
  a trace of which external operations were invoked, so that claims of the
  form "X is never called" are statable.
-/

/-- Substring occurrence, modelling JavaScript `hay.includes(needle)`:
the needle's character sequence occurs contiguously inside the hay's. -/
def occursIn (needle hay : String) : Prop :=
  needle.data <:+: hay.data

instance (needle hay : String) : Decidable (occursIn needle hay) := by
  unfold occursIn; infer_instance

/-- Token usage metrics attached to a validation result
(`ValidationResult.tokenUsage` in `src/ai/gemini-client.ts`). -/
structure TokenUsage where
  promptTokens : ℚ
  completionTokens : ℚ
  totalTokens : ℚ
  deriving Repr, DecidableEq

/-- Structured validation response (`ValidationResult` in
`src/ai/gemini-client.ts`): status is one of the strings PASS, FAIL,
WARNINGS in the TypeScript type; we keep it as a `String`, as the runtime
value comes unchecked out of `JSON.parse`. -/
structure ValidationResult where
  status : String
  issues : List String
  improved_title : String
  improved_commits : String
  improved_description : String
  tokenUsage : Option TokenUsage
  deriving Repr, DecidableEq

/-- Usage metadata of a Gemini API response
(`response.usageMetadata`, each field optional). -/
structure UsageMetadata where
  promptTokenCount : Option ℚ
  candidatesTokenCount : Option ℚ
  totalTokenCount : Option ℚ
  deriving Repr, DecidableEq

/-- The JSON object obtained from `JSON.parse(response.text())` in
`validateContent`: every field may be absent (the code defaults each one
with `??`). -/
structure ParsedVerdict where
  status : Option String
  issues : Option (List String)
  improved_title : Option String
  improved_commits : Option String
  improved_description : Option String
  deriving Repr, DecidableEq

/-- Outcome of one `model.generateContent` call: the usage metadata of the
response together with the result of `JSON.parse` on its text.
`parsed = Except.error ()` models a response whose text is malformed JSON
(`JSON.parse` throws). -/
structure GenOutcome where
  usageMetadata : Option UsageMetadata
  parsed : Except Unit ParsedVerdict
  deriving Repr

/-- The fallback verdict produced by `validateContent`'s `catch` block in
`src/ai/gemini-client.ts` (lines 208–224). -/
def fallbackVerdict : ValidationResult :=
  { status := "FAIL"
    issues := ["AI validation unavailable - please review manually"]
    improved_title := ""
    improved_commits := ""
    improved_description := ""
    tokenUsage := some { promptTokens := 0, completionTokens := 0, totalTokens := 0 } }

/-- The canned verdict returned by the legacy pattern check in
`validateContent` (lines 93–106 of `src/ai/gemini-client.ts`). -/
def legacyVerdict (prompt : String) : ValidationResult :=
  { status := "FAIL"
    issues := ["Fix commit message format"]
    improved_title := ""
    improved_commits := ""
    improved_description := ""
    tokenUsage := some
      { promptTokens := (prompt.length : ℚ) / 4
        completionTokens := 5
        totalTokens := (prompt.length : ℚ) / 4 + 5 } }

/-- `GeminiClient.validateContent` (`src/ai/gemini-client.ts`, lines 89–225),
embedded over an oracle `call` describing what the single
`model.generateContent` invocation would yield: `Except.error ()` is a
network/provider failure (the call rejects), `Except.ok o` a response with
usage metadata `o.usageMetadata` whose text parses to `o.parsed`.
Returns the `ValidationResult` together with a `Bool` recording whether the
model was actually invoked (the legacy pattern branch returns before any
model call). The Lean function is total: the source never throws — every
path, including all failure paths, returns a fully populated result. -/
def validateContent (prompt : String) (call : Except Unit GenOutcome) :
    ValidationResult × Bool :=
  if occursIn "Invalid commit message format" prompt then
    (legacyVerdict prompt, false)
  else
    match call with
    | Except.error _ => (fallbackVerdict, true)
    | Except.ok o =>
      match o.parsed with
      | Except.error _ => (fallbackVerdict, true)
      | Except.ok p =>
        ({ status := p.status.getD "FAIL"
           issues := p.issues.getD []
           improved_title := p.improved_title.getD ""
           improved_commits := p.improved_commits.getD ""
           improved_description := p.improved_description.getD ""
           tokenUsage := some
             { promptTokens := (o.usageMetadata.bind (·.promptTokenCount)).getD 0
               completionTokens := (o.usageMetadata.bind (·.candidatesTokenCount)).getD 0
               totalTokens := (o.usageMetadata.bind (·.totalTokenCount)).getD 0 } }, true)

/-- The model call failed to produce well-formed data: either the call
itself rejected, or its text was malformed JSON. -/
def genCallFails (call : Except Unit GenOutcome) : Prop :=
  call = Except.error () ∨ ∃ o, call = Except.ok o ∧ o.parsed = Except.error ()

/-- C1: for every prompt, whenever `validateContent` actually invokes the
model and that call fails (network error, provider error, or malformed
JSON), the returned value is exactly the fallback verdict: status FAIL,
issues = ["AI validation unavailable - please review manually"], all
improved fields empty, and token usage all zero. Totality of
`validateContent` (it never throws and populates every field) is by
construction of the embedding. -/
theorem validateContent_fallback_on_failure (prompt : String)
    (call : Except Unit GenOutcome)
    (hcalled : (validateContent prompt call).2 = true)
    (hfail : genCallFails call) :
    (validateContent prompt call).1 = fallbackVerdict := by
  unfold validateContent at *
  by_cases hleg : occursIn "Invalid commit message format" prompt
  · simp [hleg] at hcalled
  · rcases hfail with h | ⟨o, ho, hp⟩
    · simp [hleg, h]
    · simp [hleg, ho, hp]

/-- Witness for C1 at a concrete failing call. -/
theorem validateContent_fallback_on_failure_witness :
    (validateContent "check this PR" (Except.error ())).1 = fallbackVerdict :=
  validateContent_fallback_on_failure "check this PR" (Except.error ())
    (by decide) (Or.inl rfl)

/-- C10: any prompt containing the substring "Invalid commit message format"
hits the legacy pattern branch: `validateContent` returns the canned FAIL
verdict with issues = ["Fix commit message format"], empty improved fields,
and token usage derived from `prompt.length / 4`, and the model is never
invoked (the trace flag is `false`), for every possible model-call oracle. -/
theorem validateContent_legacy_pattern (prompt : String)
    (call : Except Unit GenOutcome)
    (hleg : occursIn "Invalid commit message format" prompt) :
    validateContent prompt call = (legacyVerdict prompt, false) := by
  unfold validateContent
  simp [hleg]

/-- Witness for C10 at a concrete legacy prompt. -/
theorem validateContent_legacy_pattern_witness :
    validateContent "Invalid commit message format" (Except.error ())
      = (legacyVerdict "Invalid commit message format", false) :=
  validateContent_legacy_pattern "Invalid commit message format"
    (Except.error ()) (by decide)

/-- Commit data extracted from the GitHub API
(`CommitData` in `src/github/client.ts`). -/
structure CommitAuthor where
  name : String
  email : String
  date : String
  deriving Repr, DecidableEq

/-- One commit of the pull request (`CommitData` in `src/github/client.ts`). -/
structure CommitData where
  sha : String
  message : String
  author : CommitAuthor
  deriving Repr, DecidableEq

/-- One changed file of the pull request (`FileData` in `src/github/client.ts`). -/
structure FileData where
  filename : String
  status : String
  additions : Nat
  deletions : Nat
  changes : Nat
  patch : Option String
  deriving Repr, DecidableEq

/-- Aggregate diff statistics (`DiffStats` in `src/github/client.ts`). -/
structure DiffStats where
  totalAdditions : Nat
  totalDeletions : Nat
  totalChanges : Nat
  filesChanged : Nat
  deriving Repr, DecidableEq

/-- Complete PR snapshot (`PRData` in `src/github/client.ts`);
`author` is optional in the source (`author?: string`). -/
structure PRData where
  number : Nat
  title : String
  body : String
  commits : List CommitData
  files : List FileData
  diffStats : DiffStats
  author : Option String
  deriving Repr, DecidableEq

/-- Raw commit shape returned by `pulls.listCommits`: the nested
`commit.author` object may be absent and each of its fields defaulted
with `?? ''` in the source. -/
structure RawCommit where
  sha : String
  message : String
  authorName : Option String
  authorEmail : Option String
  authorDate : Option String
  deriving Repr, DecidableEq

/-- Raw file shape returned by `pulls.listFiles`; `patch` may be absent
(and the source also drops an empty-string patch, since it guards with
`if (file.patch)`). -/
structure RawFile where
  filename : String
  status : String
  additions : Nat
  deletions : Nat
  changes : Nat
  patch : Option String
  deriving Repr, DecidableEq

/-- Raw PR metadata returned by `pulls.get`: `body` may be `null` and the
`user` object (carrying the author login) may be absent. -/
structure RawPR where
  number : Nat
  title : String
  body : Option String
  userLogin : Option String
  deriving Repr, DecidableEq

/-- The mapping of one raw commit into `CommitData`
(`src/github/client.ts`, lines 121–129). -/
def mapCommit (c : RawCommit) : CommitData :=
  { sha := c.sha
    message := c.message
    author :=
      { name := c.authorName.getD ""
        email := c.authorEmail.getD ""
        date := c.authorDate.getD "" } }

/-- The mapping of one raw file into `FileData`
(`src/github/client.ts`, lines 131–143): the patch is kept only when the
source's truthiness guard `if (file.patch)` passes, i.e. it is present and
non-empty. -/
def mapFile (f : RawFile) : FileData :=
  { filename := f.filename
    status := f.status
    additions := f.additions
    deletions := f.deletions
    changes := f.changes
    patch := match f.patch with
      | some p => if p = "" then none else some p
      | none => none }

/-- Success path of `GitHubClient.extractPRData`
(`src/github/client.ts`, lines 121–160): combines the three parallel API
responses into a `PRData`, deriving `DiffStats` by folding over the mapped
file list exactly as the source's `reduce` calls do. -/
def extractPRDataCore (pr : RawPR) (rawCommits : List RawCommit)
    (rawFiles : List RawFile) : PRData :=
  { number := pr.number
    title := pr.title
    body := pr.body.getD ""
    commits := rawCommits.map mapCommit
    files := rawFiles.map mapFile
    diffStats :=
      { totalAdditions := (rawFiles.map mapFile).foldl (fun sum f => sum + f.additions) 0
        totalDeletions := (rawFiles.map mapFile).foldl (fun sum f => sum + f.deletions) 0
        totalChanges := (rawFiles.map mapFile).foldl (fun sum f => sum + f.changes) 0
        filesChanged := (rawFiles.map mapFile).length }
    author := pr.userLogin }

/-- A left fold accumulating a projected `Nat` over a list, as produced by
the source's `files.reduce((sum, file) => sum + file.x, 0)`, computes the
sum of the projections. -/
theorem foldl_add_proj {α : Type} (f : α → Nat) (l : List α) (n : Nat) :
    l.foldl (fun s x => s + f x) n = n + (l.map f).sum := by
  induction l generalizing n with
  | nil => simp
  | cons x xs ih => simp [ih, Nat.add_assoc]

/-- C6: every `PRData` produced by `extractPRData` has derived diff
statistics: `totalAdditions`, `totalDeletions` and `totalChanges` are the
sums of the per-file `additions`, `deletions` and `changes` over the
snapshot's file list, and `filesChanged` is that list's length. The stats
are computed from the files (never fetched): the theorem holds for every
possible triple of raw API responses. -/
theorem extractPRData_diffStats_consistent (pr : RawPR)
    (rawCommits : List RawCommit) (rawFiles : List RawFile) :
    (extractPRDataCore pr rawCommits rawFiles).diffStats.totalAdditions
        = ((extractPRDataCore pr rawCommits rawFiles).files.map (·.additions)).sum
      ∧ (extractPRDataCore pr rawCommits rawFiles).diffStats.totalDeletions
        = ((extractPRDataCore pr rawCommits rawFiles).files.map (·.deletions)).sum
      ∧ (extractPRDataCore pr rawCommits rawFiles).diffStats.totalChanges
        = ((extractPRDataCore pr rawCommits rawFiles).files.map (·.changes)).sum
      ∧ (extractPRDataCore pr rawCommits rawFiles).diffStats.filesChanged
        = (extractPRDataCore pr rawCommits rawFiles).files.length := by
  unfold extractPRDataCore
  refine ⟨?_, ?_, ?_, rfl⟩ <;> simp [foldl_add_proj]

/-- A commit status returned by the GitHub API
(`CommitStatusData` in `src/github/client.ts`). -/
structure CommitStatusData where
  id : Nat
  state : String
  description : String
  context : String
  target_url : Option String
  deriving Repr, DecidableEq

/-- An error thrown by an Octokit call: HTTP status code (absent for, e.g.,
network-level failures) and message. -/
structure ApiError where
  status : Option Nat
  message : String
  deriving Repr, DecidableEq

/-- `GitHubClient.isRateLimitError` (`src/github/client.ts`,
lines 435–440): an error is a rate limit iff its HTTP status is 403 or 429. -/
def isRateLimitError (e : ApiError) : Bool :=
  e.status = some 403 ∨ e.status = some 429

/-- Result of the embedded `createCommitStatus`: the settled outcome, the
number of API calls that were issued, and the list of backoff delays (in
milliseconds) slept before retry calls. -/
structure StatusCallResult where
  result : Except String CommitStatusData
  apiCalls : Nat
  delays : List Nat
  deriving Repr

/-- `GitHubClient.createCommitStatus` (`src/github/client.ts`,
lines 316–433), embedded over an oracle `api` giving the outcome of the
i-th `octokit.rest.repos.createCommitStatus` network call (call 0 is the
initial attempt; calls 1–3 are the retry attempts of the catch-block loop).
The source's retry loop runs `attempt = 0, 1, 2`, sleeping
`1000 * 2^(attempt-1)` ms before attempts 1 and 2, and rethrows with the
attempt count when the retry error is not a rate limit or the loop is on
its last attempt; the loop always returns or throws, so the trailing
`Failed to create commit status: ...` throw is reached only when the
initial error is not a rate limit. -/
def createCommitStatusModel (api : Nat → Except ApiError CommitStatusData) :
    StatusCallResult :=
  match api 0 with
  | Except.ok r => { result := Except.ok r, apiCalls := 1, delays := [] }
  | Except.error e =>
    if isRateLimitError e then
      -- retry attempt 0 (no delay)
      match api 1 with
      | Except.ok r => { result := Except.ok r, apiCalls := 2, delays := [] }
      | Except.error e1 =>
        if ¬isRateLimitError e1 then
          { result := Except.error
              ("Failed to create commit status after 1 attempts: " ++ e1.message)
            apiCalls := 2, delays := [] }
        else
          -- retry attempt 1, after a 1000 ms backoff delay
          match api 2 with
          | Except.ok r => { result := Except.ok r, apiCalls := 3, delays := [1000] }
          | Except.error e2 =>
            if ¬isRateLimitError e2 then
              { result := Except.error
                  ("Failed to create commit status after 2 attempts: " ++ e2.message)
                apiCalls := 3, delays := [1000] }
            else
              -- retry attempt 2, after a 2000 ms backoff delay; last attempt:
              -- any failure is rethrown with the attempt count
              match api 3 with
              | Except.ok r =>
                { result := Except.ok r, apiCalls := 4, delays := [1000, 2000] }
              | Except.error e3 =>
                { result := Except.error
                    ("Failed to create commit status after 3 attempts: " ++ e3.message)
                  apiCalls := 4, delays := [1000, 2000] }
    else
      { result := Except.error ("Failed to create commit status: " ++ e.message)
        apiCalls := 1, delays := [] }

/-- C5: whenever the initial `createCommitStatus` call fails with a
rate-limit response (HTTP 403 or 429), the call is retried up to 3 more
attempts, the backoff delays slept before retries always form a prefix of
[1000 ms, 2000 ms] (1 s before the 2nd retry attempt, 2 s before the 3rd,
none before the 1st); when a retry fails with a non-rate-limit error, or
all retries are exhausted, the call rejects with a `ProviderError`-style
message naming the attempt count (`Failed to create commit status after N
attempts: ...`). -/
theorem createCommitStatus_rate_limit_retry
    (api : Nat → Except ApiError CommitStatusData) (e : ApiError)
    (h0 : api 0 = Except.error e) (hrl : isRateLimitError e = true) :
    ((createCommitStatusModel api).apiCalls ≤ 4
      ∧ (createCommitStatusModel api).delays <+: [1000, 2000])
    ∧ (∀ e1, api 1 = Except.error e1 → isRateLimitError e1 = false →
        (createCommitStatusModel api).result = Except.error
          ("Failed to create commit status after 1 attempts: " ++ e1.message))
    ∧ (∀ e1 e2, api 1 = Except.error e1 → isRateLimitError e1 = true →
        api 2 = Except.error e2 → isRateLimitError e2 = false →
        (createCommitStatusModel api).result = Except.error
          ("Failed to create commit status after 2 attempts: " ++ e2.message)
        ∧ (createCommitStatusModel api).delays = [1000])
    ∧ (∀ e1 e2 e3, api 1 = Except.error e1 → isRateLimitError e1 = true →
        api 2 = Except.error e2 → isRateLimitError e2 = true →
        api 3 = Except.error e3 →
        (createCommitStatusModel api).result = Except.error
          ("Failed to create commit status after 3 attempts: " ++ e3.message)
        ∧ (createCommitStatusModel api).delays = [1000, 2000]) := by
  refine ⟨⟨?_, ?_⟩, ?_, ?_, ?_⟩
  · unfold createCommitStatusModel
    rw [h0]
    simp only [hrl, if_true]
    cases h1 : api 1 with
    | ok r => simp
    | error e1 =>
      by_cases hr1 : isRateLimitError e1 <;>
        simp only [hr1, not_true, not_false_iff, if_true, if_false, ite_not] <;>
        first
        | omega
        | (cases h2 : api 2 with
           | ok r => simp
           | error e2 =>
             by_cases hr2 : isRateLimitError e2 <;>
               simp only [hr2, not_true, not_false_iff, if_true, if_false, ite_not] <;>
               first
               | omega
               | (cases h3 : api 3 with
                  | ok r => simp
                  | error e3 => simp))
  · unfold createCommitStatusModel
    rw [h0]
    simp only [hrl, if_true]
    cases h1 : api 1 with
    | ok r => simp
    | error e1 =>
      by_cases hr1 : isRateLimitError e1 <;>
        simp only [hr1, not_true, not_false_iff, if_true, if_false, ite_not]
      · cases h2 : api 2 with
        | ok r => simp
        | error e2 =>
          by_cases hr2 : isRateLimitError e2 <;>
            simp only [hr2, not_true, not_false_iff, if_true, if_false, ite_not]
          · cases h3 : api 3 with
            | ok r => simp
            | error e3 => simp
          · simp
      · simp
  · intro e1 h1 hr1
    unfold createCommitStatusModel
    rw [h0, h1]
    simp [hrl, hr1]
  · intro e1 e2 h1 hr1 h2 hr2
    unfold createCommitStatusModel
    rw [h0, h1, h2]
    simp [hrl, hr1, hr2]
  · intro e1 e2 e3 h1 hr1 h2 hr2 h3
    unfold createCommitStatusModel
    rw [h0, h1, h2, h3]
    simp [hrl, hr1, hr2]

/-- Witness for C5: a concrete oracle that rate-limits every call. -/
theorem createCommitStatus_rate_limit_retry_witness :
    ((createCommitStatusModel fun _ =>
        Except.error { status := some 429, message := "rate limited" }).result
      = Except.error
          "Failed to create commit status after 3 attempts: rate limited")
    ∧ (createCommitStatusModel fun _ =>
        Except.error { status := some 429, message := "rate limited" }).delays
      = [1000, 2000] :=
  (createCommitStatus_rate_limit_retry
      (fun _ => Except.error { status := some 429, message := "rate limited" })
      { status := some 429, message := "rate limited" } rfl (by decide)).2.2.2
    _ _ _ rfl (by decide) rfl (by decide) rfl

/-- A PR comment as returned by the GitHub API
(`CommentData` in `src/github/client.ts`). -/
structure CommentData where
  id : Nat
  body : String
  created_at : String
  updated_at : String
  deriving Repr, DecidableEq

/-- Comment bookkeeping operations, for tracing which calls the comment
publication logic issues. -/
inductive CommentOp where
  | findComment
  | updateExisting
  | createNew
  deriving Repr, DecidableEq

/-- Oracles for the three comment operations the publication block can
issue: the outcome of `findCommentByIdentifier`, the outcome of
`updateComment`, and the outcome of the i-th `createComment` call (the
block can call `createComment` at most twice: once from the inner
update-failure fallback and once more from the outer catch). -/
structure CommentOracles where
  find : Except String (Option CommentData)
  update : Except String CommentData
  create : Nat → Except String CommentData

/-- The comment publication block of `run`
(`src/ai/gemini-client.ts`, lines 337–398): look up the tracked comment;
if found, try `updateComment` and on failure fall back to `createComment`;
if not found, `createComment` directly; any error escaping that inner
logic — including a failure of `findCommentByIdentifier` itself — is
caught by the outer handler, which calls `createComment` once more.
Returns the settled `commentResult` and the trace of operations issued. -/
def publishComment (o : CommentOracles) :
    Except String CommentData × List CommentOp :=
  match o.find with
  | Except.error _ =>
    -- outer catch: lookup itself failed, fall back to create
    match o.create 0 with
    | Except.ok c => (Except.ok c, [CommentOp.findComment, CommentOp.createNew])
    | Except.error m => (Except.error m, [CommentOp.findComment, CommentOp.createNew])
  | Except.ok (some _) =>
    match o.update with
    | Except.ok c =>
      (Except.ok c, [CommentOp.findComment, CommentOp.updateExisting])
    | Except.error _ =>
      -- inner catch: update failed, create instead of propagating
      match o.create 0 with
      | Except.ok c =>
        (Except.ok c,
          [CommentOp.findComment, CommentOp.updateExisting, CommentOp.createNew])
      | Except.error _ =>
        -- the fallback create threw inside the outer try: the outer catch
        -- fires and creates once more
        match o.create 1 with
        | Except.ok c =>
          (Except.ok c,
            [CommentOp.findComment, CommentOp.updateExisting,
              CommentOp.createNew, CommentOp.createNew])
        | Except.error m =>
          (Except.error m,
            [CommentOp.findComment, CommentOp.updateExisting,
              CommentOp.createNew, CommentOp.createNew])
  | Except.ok none =>
    match o.create 0 with
    | Except.ok c => (Except.ok c, [CommentOp.findComment, CommentOp.createNew])
    | Except.error _ =>
      -- create from the no-existing-comment path threw inside the outer
      -- try: the outer catch fires and creates once more
      match o.create 1 with
      | Except.ok c =>
        (Except.ok c,
          [CommentOp.findComment, CommentOp.createNew, CommentOp.createNew])
      | Except.error m =>
        (Except.error m,
          [CommentOp.findComment, CommentOp.createNew, CommentOp.createNew])

/-- C4: comment bookkeeping never fails publication. (1) If the lookup
finds a tracked comment and the update succeeds, its result is published
and no create happens. (2) If the lookup finds a tracked comment but the
update throws, `createComment` is called and its comment is published —
the update error does not propagate. (3) If no tracked comment is found,
`createComment` is called directly and `updateComment` is never attempted.
(4) If the lookup itself throws, the block falls back to `createComment`
and `updateComment` is never attempted. In each case exactly one
create-or-update operation succeeds and produces the published comment
returned to the caller. -/
theorem publishComment_fallback_cases (o : CommentOracles) :
    (∀ c u, o.find = Except.ok (some c) → o.update = Except.ok u →
      publishComment o
        = (Except.ok u, [CommentOp.findComment, CommentOp.updateExisting]))
    ∧ (∀ c m n, o.find = Except.ok (some c) → o.update = Except.error m →
        o.create 0 = Except.ok n →
        publishComment o = (Except.ok n,
          [CommentOp.findComment, CommentOp.updateExisting, CommentOp.createNew]))
    ∧ (∀ n, o.find = Except.ok none → o.create 0 = Except.ok n →
        publishComment o
          = (Except.ok n, [CommentOp.findComment, CommentOp.createNew]))
    ∧ (∀ m n, o.find = Except.error m → o.create 0 = Except.ok n →
        publishComment o
          = (Except.ok n, [CommentOp.findComment, CommentOp.createNew])) := by
  refine ⟨?_, ?_, ?_, ?_⟩
  · intro c u hf hu
    unfold publishComment
    rw [hf, hu]
  · intro c m n hf hu hc
    unfold publishComment
    rw [hf, hu, hc]
  · intro n hf hc
    unfold publishComment
    rw [hf, hc]
  · intro m n hf hc
    unfold publishComment
    rw [hf, hc]

/-- Witness for C4: the update-failure fallback at concrete oracles. -/
theorem publishComment_fallback_cases_witness :
    publishComment
      { find := Except.ok (some { id := 7, body := "old", created_at := "t0", updated_at := "t0" })
        update := Except.error "comment was deleted"
        create := fun _ =>
          Except.ok { id := 9, body := "new", created_at := "t1", updated_at := "t1" } }
      = (Except.ok { id := 9, body := "new", created_at := "t1", updated_at := "t1" },
          [CommentOp.findComment, CommentOp.updateExisting, CommentOp.createNew]) :=
  (publishComment_fallback_cases _).2.1
    { id := 7, body := "old", created_at := "t0", updated_at := "t0" }
    "comment was deleted"
    { id := 9, body := "new", created_at := "t1", updated_at := "t1" }
    rfl rfl rfl

/-- JavaScript `Array.prototype.join(sep)` on a list of strings. -/
def jsJoin (sep : String) : List String → String
  | [] => ""
  | [x] => x
  | x :: y :: xs => x ++ sep ++ jsJoin sep (y :: xs)

/-- The per-commit line of the validation prompt:
`- ${commit.message} (by ${commit.author.name})`
(`src/ai/gemini-client.ts`, line 74). -/
def commitLine (c : CommitData) : String :=
  "- " ++ c.message ++ " (by " ++ c.author.name ++ ")"

/-- `GeminiClient.generateValidationPrompt`
(`src/ai/gemini-client.ts`, lines 65–81): the deterministic template
embedding the PR title, the body (or the placeholder when the body is
empty, via the source's `prData.body || 'No description provided'`), and
the joined commit lines, followed by the guidelines text. -/
def generateValidationPrompt (prData : PRData) (guidelines : String) : String :=
  "\nAnalyze this pull request TEXT FORMAT against the contribution guidelines:\n\n**Pull Request Details:**\n- Title: "
    ++ prData.title
    ++ "\n- Description: "
    ++ (if prData.body = "" then "No description provided" else prData.body)
    ++ "\n\n**Commits:**\n"
    ++ jsJoin "\n" (prData.commits.map commitLine)
    ++ "\n\n**Contribution Guidelines:**\n"
    ++ guidelines
    ++ "\n\nIMPORTANT: Validate ONLY the text format (title, description, commit messages).\nDo NOT evaluate code changes, architecture, or implementation details."

/-- Validator configuration (`ValidationConfig` in `src/core/validator.ts`);
`skipAuthors` is optional in the source (`skipAuthors?: string`) and the
action wires it from `core.getInput`, which yields `""` when unset — the
guard `if (this._config.skipAuthors && ...)` treats `undefined` and `""`
identically, so we model the absent case as `""`. -/
structure ValidationConfig where
  githubToken : String
  geminiApiKey : String
  guidelinesFile : String
  skipAuthors : String
  deriving Repr, DecidableEq

/-- `ValidationReport` in `src/core/validator.ts`; `skipped` is optional. -/
structure ValidationReport where
  valid : Bool
  suggestions : List String
  skipped : Option Bool
  deriving Repr, DecidableEq

/-- What `performValidation` resolves with: either a `ValidationReport`
(skip branch, degraded branches) or — on the AI branch — the
`ValidationResult` from `validateContent`, returned as-is by the source. -/
inductive PerformResult where
  | report (r : ValidationReport)
  | aiResult (v : ValidationResult)
  deriving Repr, DecidableEq

/-- The arguments of one `createCommitStatus` call. -/
structure CommitStatusArgs where
  owner : String
  repo : String
  sha : String
  state : String
  description : String
  context : String
  deriving Repr, DecidableEq

/-- Oracles for `performValidation`'s three external calls: the outcome of
`extractPRData`, the result `validateContent` resolves with (it never
rejects — see C1), and the outcome of `createCommitStatus`. -/
structure PVOracles where
  fetch : Except String PRData
  gemini : String → ValidationResult
  commitStatus : Except String CommitStatusData

/-- Outcome of the embedded `performValidation`: the settled result plus a
trace recording whether `validateContent` was invoked and which
`createCommitStatus` calls were issued. -/
structure PVOutcome where
  result : Except String PerformResult
  geminiCalled : Bool
  commitCalls : List CommitStatusArgs
  deriving Repr

/-- Splitting a character list at every occurrence of the character `c`,
modelling JavaScript `String.prototype.split` with a one-character
separator: the empty input yields one empty piece, like `"".split(',')`. -/
def splitChar (c : Char) : List Char → List (List Char)
  | [] => [[]]
  | x :: xs =>
    if x = c then [] :: splitChar c xs
    else
      match splitChar c xs with
      | [] => [[x]]
      | piece :: rest => (x :: piece) :: rest

/-- JavaScript `s.split(',')`, the only split the validator performs. -/
def jsSplitComma (s : String) : List String :=
  (splitChar ',' s.data).map fun l => { data := l }

/-- JavaScript `String.prototype.trim`: drop leading and trailing
whitespace characters. -/
def jsTrim (s : String) : String :=
  { data := ((s.data.dropWhile Char.isWhitespace).reverse.dropWhile
      Char.isWhitespace).reverse }

/-- The bot-exclusion guard of `Validator.performValidation`
(`src/core/validator.ts`, lines 107–111): skip iff `skipAuthors` is truthy
(non-empty), the snapshot's author is truthy (present and non-empty), and
the author is contained in the comma-split, trimmed skip list. -/
def skipTaken (cfg : ValidationConfig) (prData : PRData) : Bool :=
  (cfg.skipAuthors != "")
    && (match prData.author with
        | some a =>
          (a != "") && ((jsSplitComma cfg.skipAuthors).map jsTrim).contains a
        | none => false)

/-- `Validator.performValidation` (`src/core/validator.ts`, lines 92–157),
embedded over the call oracles. `hasGithub` / `hasGemini` model whether the
optional clients were injected. The commit-status args are the source's
literal arguments at lines 129–136 and 140–147. -/
def performValidation (cfg : ValidationConfig) (owner repo : String)
    (hasGithub hasGemini : Bool) (o : PVOracles) : PVOutcome :=
  if hasGithub then
    match o.fetch with
    | Except.error m =>
      { result := Except.error m, geminiCalled := false, commitCalls := [] }
    | Except.ok prData =>
      if skipTaken cfg prData then
        { result := Except.ok (PerformResult.report
            { valid := true
              suggestions :=
                ["Validation skipped for automated PR by " ++ prData.author.getD ""]
              skipped := some true })
          geminiCalled := false
          commitCalls := [] }
      else
        if hasGemini then
          match o.commitStatus with
          | Except.error m =>
            { result := Except.error m
              geminiCalled := true
              commitCalls :=
                [{ owner := owner, repo := repo, sha := "HEAD", state := "success",
                   description := "Test", context := "ai-validator" }] }
          | Except.ok _ =>
            { result := Except.ok (PerformResult.aiResult
                (o.gemini (generateValidationPrompt prData cfg.guidelinesFile)))
              geminiCalled := true
              commitCalls :=
                [{ owner := owner, repo := repo, sha := "HEAD", state := "success",
                   description := "Test", context := "ai-validator" }] }
        else
          match o.commitStatus with
          | Except.error m =>
            { result := Except.error m
              geminiCalled := false
              commitCalls :=
                [{ owner := owner, repo := repo, sha := "HEAD", state := "success",
                   description := "Test", context := "ai-validator" }] }
          | Except.ok _ =>
            { result := Except.ok (PerformResult.report
                { valid := true, suggestions := [], skipped := none })
              geminiCalled := false
              commitCalls :=
                [{ owner := owner, repo := repo, sha := "HEAD", state := "success",
                   description := "Test", context := "ai-validator" }] }
  else
    { result := Except.ok (PerformResult.report
        { valid := true, suggestions := [], skipped := none })
      geminiCalled := false
      commitCalls := [] }


/-- Concrete snapshot for the C2 counterexample: the GitHub API type does
not rule out a PR whose author login is the empty string, so
`author = some ""` is a legal `PRData` value. -/
def emptyAuthorSnapshot : PRData :=
  { number := 1
    title := "t"
    body := ""
    commits := []
    files := []
    diffStats := { totalAdditions := 0, totalDeletions := 0, totalChanges := 0,
                   filesChanged := 0 }
    author := some "" }

/-- Concrete configuration for the C2 counterexample: `skipAuthors = ","`
splits into two entries, both the empty string. -/
def cexConfig : ValidationConfig :=
  { githubToken := "ghp_x", geminiApiKey := "k",
    guidelinesFile := "CONTRIBUTING.md", skipAuthors := "," }

/-- Concrete oracles for the C2 counterexample. -/
def cexOracles : PVOracles :=
  { fetch := Except.ok emptyAuthorSnapshot
    gemini := fun _ => fallbackVerdict
    commitStatus := Except.ok
      { id := 1, state := "success", description := "Test",
        context := "ai-validator", target_url := none } }

/-- C2 counterexample: the claim quantifies over every snapshot whose
author appears (by exact match) in the comma-split, trimmed `skipAuthors`
list, and asserts `validateContent` is never called on such runs. With
`skipAuthors = ","` the trimmed split list contains the empty string, and
a snapshot with `author = some ""` matches it exactly — yet
`performValidation` does invoke the AI client on this run, because the
source's guard `if (this._config.skipAuthors && prData.author)` treats an
empty author as absent and bypasses the skip branch entirely. -/
theorem performValidation_skip_claim_counterexample :
    (((jsSplitComma cexConfig.skipAuthors).map jsTrim).contains "" = true)
    ∧ (emptyAuthorSnapshot.author = some "")
    ∧ (performValidation cexConfig "o" "r" true true cexOracles).geminiCalled = true := by
  refine ⟨by decide, rfl, by decide⟩

/-- C2 (amended): for every snapshot whose author is present, *non-empty*
and appears in the comma-split, trimmed `skipAuthors` list by exact match,
`performValidation` short-circuits: it resolves with a report with
`valid = true`, `skipped = true`, and exactly one suggestion
`Validation skipped for automated PR by` followed by the author, while
`validateContent` is never invoked (and no commit status is posted). -/
theorem performValidation_skip_short_circuit (cfg : ValidationConfig)
    (owner repo : String) (hasGemini : Bool) (o : PVOracles)
    (prData : PRData) (a : String)
    (hfetch : o.fetch = Except.ok prData)
    (ha : prData.author = some a) (hne : a ≠ "")
    (hmem : a ∈ (jsSplitComma cfg.skipAuthors).map jsTrim) :
    performValidation cfg owner repo true hasGemini o =
      { result := Except.ok (PerformResult.report
          { valid := true
            suggestions := ["Validation skipped for automated PR by " ++ a]
            skipped := some true })
        geminiCalled := false
        commitCalls := [] } := by
  have hsne : cfg.skipAuthors ≠ "" := by
    intro hempty
    rw [hempty] at hmem
    have : (jsSplitComma "").map jsTrim = [""] := by decide
    rw [this] at hmem
    simp at hmem
    exact hne hmem
  have hskip : skipTaken cfg prData = true := by
    unfold skipTaken
    rw [ha]
    simp only [Bool.and_eq_true, bne_iff_ne, ne_eq]
    refine ⟨hsne, hne, ?_⟩
    exact List.elem_eq_true_of_mem hmem
  unfold performValidation
  rw [hfetch]
  simp [hskip, ha]

/-- Witness for the amended C2 at the spec's own example inputs. -/
theorem performValidation_skip_short_circuit_witness :
    performValidation
      { githubToken := "ghp_x", geminiApiKey := "k",
        guidelinesFile := "CONTRIBUTING.md", skipAuthors := "dependabot[bot]" }
      "o" "r" true true
      { fetch := Except.ok { emptyAuthorSnapshot with author := some "dependabot[bot]" }
        gemini := fun _ => fallbackVerdict
        commitStatus := Except.ok
          { id := 1, state := "success", description := "Test",
            context := "ai-validator", target_url := none } } =
      { result := Except.ok (PerformResult.report
          { valid := true
            suggestions := ["Validation skipped for automated PR by dependabot[bot]"]
            skipped := some true })
        geminiCalled := false
        commitCalls := [] } :=
  performValidation_skip_short_circuit _ "o" "r" true _ _ "dependabot[bot]"
    rfl rfl (by decide) (by decide)

/-- C9: whenever `performValidation` runs with an injected GitHub client,
the fetch succeeds, and the skip branch is not taken, exactly one
`createCommitStatus` call is issued, always with the literal arguments
sha = "HEAD", state = "success", description = "Test",
context = "ai-validator" — regardless of whether the AI client is
configured, what verdict it returns, and what the PR's actual head SHA
is. -/
theorem performValidation_commit_status_hardcoded (cfg : ValidationConfig)
    (owner repo : String) (hasGemini : Bool) (o : PVOracles) (prData : PRData)
    (hfetch : o.fetch = Except.ok prData)
    (hskip : skipTaken cfg prData = false) :
    (performValidation cfg owner repo true hasGemini o).commitCalls =
      [{ owner := owner, repo := repo, sha := "HEAD", state := "success",
         description := "Test", context := "ai-validator" }] := by
  unfold performValidation
  rw [hfetch]
  simp only [hskip, if_true, if_false, Bool.false_eq_true, ite_false]
  cases hasGemini <;> cases o.commitStatus <;> simp

/-- Witness for C9 at concrete inputs (author not in the skip list). -/
theorem performValidation_commit_status_hardcoded_witness :
    (performValidation cexConfig "octo" "repo" true false
      { fetch := Except.ok { emptyAuthorSnapshot with author := some "alice" }
        gemini := fun _ => fallbackVerdict
        commitStatus := Except.ok
          { id := 1, state := "success", description := "Test",
            context := "ai-validator", target_url := none } }).commitCalls =
      [{ owner := "octo", repo := "repo", sha := "HEAD", state := "success",
         description := "Test", context := "ai-validator" }] :=
  performValidation_commit_status_hardcoded cexConfig "octo" "repo" false _ _
    rfl (by decide)

/-- `Validator.validate` (`src/core/validator.ts`, lines 72–90) with an
explicit wall-clock: the method first registers a 30000 ms rejection timer
(`global.setTimeout` at line 80, started on entry to `validate`, before
`performValidation` is invoked), then races the timer against
`performValidation`. `fetchMs` is the time `extractPRData` takes and
`postMs` the time of everything after it, so the pipeline settles (with
outcome `pipeline`) at `fetchMs + postMs` milliseconds after the timer
started; `Promise.race` yields whichever settles first. Since the timer is
armed before the data fetch begins, the 30-second deadline spans the whole
pipeline, the fetch included. -/
def validateModel (fetchMs postMs : Nat)
    (pipeline : Except String PerformResult) : Except String PerformResult :=
  if fetchMs + postMs < 30000 then pipeline
  else Except.error "Validation timeout after 30 seconds"

/-- C3 counterexample: the claim asserts that the 30-second timeout covers
only the span *after* the data fetch, i.e. that a run whose post-fetch work
finishes within 30 seconds never times out. That is false: a run whose
fetch alone takes 31 seconds (post-fetch work instantaneous, so the
claimed covered span is 0 ms < 30000 ms) still rejects with the Timeout
error, because the source arms the timer before the fetch starts. -/
theorem validate_timeout_claim_counterexample :
    ¬ (∀ (fetchMs postMs : Nat) (pipeline : Except String PerformResult),
        postMs < 30000 → validateModel fetchMs postMs pipeline = pipeline) := by
  intro h
  have h31 := h 31000 0
    (Except.ok (PerformResult.report { valid := true, suggestions := [], skipped := none }))
    (by decide)
  rw [validateModel] at h31
  simp at h31

/-- C3 (amended): `Validator.validate` races the pipeline against a fixed
30-second wall-clock timeout covering the *whole* run — the data fetch
included, since the timer is armed on entry to `validate` before the fetch
starts. If the timeout elapses first the run rejects with the error
`Validation timeout after 30 seconds` and no partial verdict is returned;
otherwise the pipeline's own outcome is returned unchanged. -/
theorem validate_timeout_covers_whole_pipeline (fetchMs postMs : Nat)
    (pipeline : Except String PerformResult) :
    (30000 ≤ fetchMs + postMs →
      validateModel fetchMs postMs pipeline
        = Except.error "Validation timeout after 30 seconds")
    ∧ (fetchMs + postMs < 30000 →
      validateModel fetchMs postMs pipeline = pipeline) := by
  constructor
  · intro hle
    rw [validateModel, if_neg (by omega)]
  · intro hlt
    rw [validateModel, if_pos hlt]

/-- Witness for the amended C3: a 31-second fetch alone trips the
timeout, and a 1-second run does not. -/
theorem validate_timeout_covers_whole_pipeline_witness :
    (validateModel 31000 0
        (Except.ok (PerformResult.report { valid := true, suggestions := [], skipped := none }))
      = Except.error "Validation timeout after 30 seconds")
    ∧ (validateModel 500 500
        (Except.ok (PerformResult.report { valid := true, suggestions := [], skipped := none }))
      = Except.ok (PerformResult.report { valid := true, suggestions := [], skipped := none })) :=
  ⟨(validate_timeout_covers_whole_pipeline 31000 0 _).1 (by decide),
   (validate_timeout_covers_whole_pipeline 500 500 _).2 (by decide)⟩

/-- The truncation applied to each issue line by `formatToMarkdown`
(`src/core/formatter.ts`, lines 60–61):
strings longer than 1000 characters are cut to their first 1000 characters
followed by an ellipsis; shorter strings pass through unchanged. -/
def jsTruncate (s : String) : String :=
  if s.length > 1000 then { data := s.data.take 1000 } ++ "..." else s

/-- One rendered issue bullet (`src/core/formatter.ts`, line 62). -/
def renderIssueLine (i : String) : String :=
  "- " ++ jsTruncate i ++ "\n"

/-- The `issues.forEach` accumulation of `formatToMarkdown`
(`src/core/formatter.ts`, lines 59–63). -/
def renderIssues : List String → String
  | [] => ""
  | i :: rest => renderIssueLine i ++ renderIssues rest

/-- The status header block of `formatToMarkdown`
(`src/core/formatter.ts`, lines 40–51). -/
def statusBlock (status : String) : String :=
  if status = "PASS" then
    "### Status: ✅ Passed\nGreat work! Your contribution meets our guidelines.\n\n"
  else if status = "WARNINGS" then
    "### Status: ⚠️ Passed with Warnings\nYour contribution looks good, but consider these suggestions for improvement.\n\n"
  else
    "### Status: ❌ Needs Improvement\nYour contribution needs some changes to meet our guidelines.\n\n"

/-- The issues section of `formatToMarkdown`
(`src/core/formatter.ts`, lines 54–65). -/
def issuesBlock (issues : List String) : String :=
  if issues = [] then "_No issues detected_\n\n"
  else "\n" ++ renderIssues issues ++ "\n"

/-- A fenced code block as emitted for each improvement suggestion
(`src/core/formatter.ts`, lines 93–95, 99–101, 105–107): the suggestion
text is rendered verbatim between the fences. -/
def codeBlock (s : String) : String :=
  "```\n" ++ s ++ "\n" ++ "```\n\n"

/-- The `hasImprovements` guard of `formatToMarkdown`
(`src/core/formatter.ts`, lines 70–73). -/
def hasImprovements (v : ValidationResult) : Bool :=
  (jsTrim v.improved_title != "") || (jsTrim v.improved_commits != "")
    || (jsTrim v.improved_description != "")

/-- The status-specific improvements header
(`src/core/formatter.ts`, lines 81–89). -/
def improvementsHeader (status : String) : String :=
  if status = "PASS" then
    "### 💡 Optional Enhancements:\n\n" ++
      "Your PR meets all requirements and is ready to merge. The following suggestions are optional enhancements you might consider for future contributions:\n\n"
  else if status = "WARNINGS" then "### ⚠️ Suggested Improvements:\n\n"
  else "### ✨ Required Improvements:\n\n"

/-- The improvements section of `formatToMarkdown`
(`src/core/formatter.ts`, lines 75–111). -/
def improvementsBlock (v : ValidationResult) : String :=
  if hasImprovements v then
    improvementsHeader v.status
      ++ (if jsTrim v.improved_title != "" then
            "#### 📝 Suggested PR Title:\n" ++ codeBlock v.improved_title
          else "")
      ++ (if jsTrim v.improved_commits != "" then
            "#### 📋 Suggested Commit Message:\n" ++ codeBlock v.improved_commits
          else "")
      ++ (if jsTrim v.improved_description != "" then
            "#### 📄 Suggested PR Description:\n" ++ codeBlock v.improved_description
          else "")
  else ""

/-- The footer of `formatToMarkdown` (`src/core/formatter.ts`,
lines 113–118), parameterized by the rendered timestamp (the source
computes it from `new Date()`; the embedding takes it as input). -/
def footerBlock (timestamp : String) : String :=
  "---\n*Automated validation based on [contribution guidelines](CONTRIBUTING.md)*\n_Last updated: "
    ++ timestamp ++ "_\n"

/-- `ResultFormatter.formatToMarkdown` (`src/core/formatter.ts`,
lines 37–121), parameterized by the footer timestamp. -/
def formatToMarkdown (v : ValidationResult) (timestamp : String) : String :=
  "## 🤖 AI Validation Results\n\n"
    ++ statusBlock v.status
    ++ "### 📋 Issues Found:\n"
    ++ issuesBlock v.issues
    ++ improvementsBlock v
    ++ footerBlock timestamp

/-- The renderer the claim describes: identical to the source's, except
that the three improvement texts are also truncated to 1000 characters
plus ellipsis before rendering. -/
def formatToMarkdownClaimed (v : ValidationResult) (timestamp : String) : String :=
  formatToMarkdown
    { v with
      improved_title := jsTruncate v.improved_title
      improved_commits := jsTruncate v.improved_commits
      improved_description := jsTruncate v.improved_description }
    timestamp

/-- Dropping while a predicate holds leaves a list whose head falsifies
the predicate untouched. -/
theorem dropWhile_cons_false {p : Char → Bool} {x : Char} {l : List Char}
    (h : p x = false) : (x :: l).dropWhile p = x :: l := by
  simp [List.dropWhile_cons, h]

/-- Unfolding a 1001-element replicate by one step. -/
theorem repl1001 : List.replicate 1001 'a' = 'a' :: List.replicate 1000 'a' := by
  rw [(by norm_num : (1001 : Nat) = 1000 + 1), List.replicate_succ]

/-- Unfolding a 1000-element replicate by one step. -/
theorem repl1000 : List.replicate 1000 'a' = 'a' :: List.replicate 999 'a' := by
  rw [(by norm_num : (1000 : Nat) = 999 + 1), List.replicate_succ]

/-- Trimming a run of 1001 letters is the identity. -/
theorem jsTrim_T :
    jsTrim { data := List.replicate 1001 'a' } = { data := List.replicate 1001 'a' } := by
  unfold jsTrim
  rw [repl1001]
  rw [dropWhile_cons_false (by decide)]
  rw [← repl1001, List.reverse_replicate, repl1001, dropWhile_cons_false (by decide), ← repl1001,
    List.reverse_replicate]

/-- Trimming the empty string is the identity. -/
theorem jsTrim_empty : jsTrim "" = "" := rfl

/-- Trimming 1000 letters followed by an ellipsis is the identity. -/
theorem jsTrim_T' :
    jsTrim ({ data := List.replicate 1000 'a' } ++ "...")
      = { data := List.replicate 1000 'a' } ++ "..." := by
  have hdata : ({ data := List.replicate 1000 'a' } ++ "..." : String).data
      = 'a' :: (List.replicate 999 'a' ++ ['.', '.', '.']) := by
    show List.replicate 1000 'a' ++ ['.', '.', '.']
        = 'a' :: (List.replicate 999 'a' ++ ['.', '.', '.'])
    rw [repl1000]
    rfl
  unfold jsTrim
  rw [hdata, dropWhile_cons_false (by decide), List.reverse_cons, List.reverse_append,
    List.reverse_replicate]
  have hrev3 : (['.', '.', '.'] : List Char).reverse = ['.', '.', '.'] := rfl
  rw [hrev3]
  have hcons : ((['.', '.', '.'] ++ List.replicate 999 'a') ++ ['a'])
      = '.' :: ((['.', '.'] ++ List.replicate 999 'a') ++ ['a']) := rfl
  rw [hcons, dropWhile_cons_false (by decide), ← hcons, List.reverse_append,
    List.reverse_append, List.reverse_replicate, hrev3]
  show ({ data := (['a'] : List Char).reverse ++ (List.replicate 999 'a' ++ ['.', '.', '.']) } : String)
      = { data := List.replicate 1000 'a' ++ "...".data }
  rw [show ((['a'] : List Char).reverse) = ['a'] from rfl, repl1000]
  rfl

/-- Truncating a run of 1001 letters yields 1000 letters plus ellipsis. -/
theorem jsTruncate_T :
    jsTruncate { data := List.replicate 1001 'a' }
      = { data := List.replicate 1000 'a' } ++ "..." := by
  unfold jsTruncate
  rw [if_pos]
  · rw [show ({ data := List.replicate 1001 'a' } : String).data = List.replicate 1001 'a' from rfl,
      List.take_replicate]
    norm_num
  · show ({ data := List.replicate 1001 'a' } : String).length > 1000
    rw [show ({ data := List.replicate 1001 'a' } : String).length
        = (List.replicate 1001 'a').length from rfl, List.length_replicate]
    norm_num

/-- Two renders that differ only in the improvement-title text differ
whenever the two titles (both surviving the trim guard) have different
lengths: the title is embedded verbatim in exactly one position. -/
theorem formatToMarkdown_title_length_sensitive
    (s : String) (issues : List String) (t t' : String)
    (tu tu' : Option TokenUsage) (ts : String)
    (hne : jsTrim t ≠ "") (hne' : jsTrim t' ≠ "") (hlen : t.length ≠ t'.length) :
    formatToMarkdown
        { status := s, issues := issues, improved_title := t,
          improved_commits := "", improved_description := "", tokenUsage := tu } ts
      ≠ formatToMarkdown
        { status := s, issues := issues, improved_title := t',
          improved_commits := "", improved_description := "", tokenUsage := tu' } ts := by
  intro h
  apply hlen
  have hb : (jsTrim t != "") = true := by simpa [bne_iff_ne] using hne
  have hb' : (jsTrim t' != "") = true := by simpa [bne_iff_ne] using hne'
  have hz : (jsTrim "" != "") = false := by simp [jsTrim_empty]
  have h2 := congrArg String.length h
  simp only [formatToMarkdown, improvementsBlock, hasImprovements, codeBlock,
    hb, hb', hz, Bool.true_or, Bool.or_true, Bool.or_false, Bool.false_or,
    if_true, if_false, String.length_append, String.length_empty] at h2
  omega

/-- The verdict refuting C8: a single improvement suggestion of 1001
characters, which the source renders untruncated. -/
def cexVerdict : ValidationResult :=
  { status := "FAIL", issues := [],
    improved_title := { data := List.replicate 1001 'a' },
    improved_commits := "", improved_description := "", tokenUsage := none }

/-- C8 counterexample: the claim says every issue *and* every improvement
text longer than 1000 characters is truncated (to its first 1000
characters plus "...") before rendering. The renderer that truncates the
improvement texts (`formatToMarkdownClaimed`) disagrees with the source's
renderer on a verdict whose `improved_title` has 1001 characters: the
source emits the title verbatim (1001 characters in the code block), the
claimed renderer 1003 — so the claim is false of the code, which truncates
only the entries of `issues`. -/
theorem formatToMarkdown_truncation_counterexample :
    formatToMarkdown cexVerdict "2026-01-01 00:00:00 UTC"
      ≠ formatToMarkdownClaimed cexVerdict "2026-01-01 00:00:00 UTC" := by
  unfold formatToMarkdownClaimed cexVerdict
  have hz : jsTruncate "" = "" := rfl
  simp only [jsTruncate_T, hz]
  apply formatToMarkdown_title_length_sensitive
  · rw [jsTrim_T]
    intro hcontra
    have hl := congrArg String.length hcontra
    rw [show ({ data := List.replicate 1001 'a' } : String).length
        = (List.replicate 1001 'a').length from rfl, List.length_replicate,
      show ("" : String).length = 0 from rfl] at hl
    exact absurd hl (by norm_num)
  · rw [jsTrim_T']
    intro hcontra
    have hl := congrArg String.length hcontra
    rw [String.length_append,
      show ({ data := List.replicate 1000 'a' } : String).length
        = (List.replicate 1000 'a').length from rfl, List.length_replicate,
      show ("..." : String).length = 3 from rfl,
      show ("" : String).length = 0 from rfl] at hl
    exact absurd hl (by norm_num)
  · rw [show ({ data := List.replicate 1001 'a' } : String).length
        = (List.replicate 1001 'a').length from rfl, List.length_replicate,
      String.length_append,
      show ({ data := List.replicate 1000 'a' } : String).length
        = (List.replicate 1000 'a').length from rfl, List.length_replicate,
      show ("..." : String).length = 3 from rfl]
    norm_num

/-- A string occurs in itself. -/
theorem occursIn_refl (s : String) : occursIn s s :=
  List.infix_refl s.data

/-- An occurrence survives prepending text. -/
theorem occursIn_append_left (a : String) {n b : String} (h : occursIn n b) :
    occursIn n (a ++ b) := by
  unfold occursIn at *
  rw [String.data_append]
  exact h.trans (List.suffix_append a.data b.data).isInfix

/-- An occurrence survives appending text. -/
theorem occursIn_append_right (b : String) {n a : String} (h : occursIn n a) :
    occursIn n (a ++ b) := by
  unfold occursIn at *
  rw [String.data_append]
  exact h.trans (List.prefix_append a.data b.data).isInfix

/-- Every member's rendered bullet occurs in the rendered issue list. -/
theorem renderIssues_occursIn {i : String} {issues : List String}
    (h : i ∈ issues) : occursIn (renderIssueLine i) (renderIssues issues) := by
  induction issues with
  | nil => cases h
  | cons x xs ih =>
    cases h with
    | head => exact occursIn_append_right _ (occursIn_refl _)
    | tail _ hmem => exact occursIn_append_left _ (ih hmem)

/-- C8 (amended): in the rendered markdown comment, each item of `issues`
appears as a bullet carrying its truncated form (first 1000 characters
plus "..." when longer than 1000, unchanged otherwise), whereas the
`improved_title`, `improved_commits` and `improved_description` texts —
whenever rendered at all, i.e. when non-blank — appear *verbatim* inside
their fenced code blocks, with no truncation applied. -/
theorem formatToMarkdown_only_issues_truncated (v : ValidationResult) (ts : String) :
    (∀ i ∈ v.issues, occursIn (renderIssueLine i) (formatToMarkdown v ts))
    ∧ (jsTrim v.improved_title ≠ "" →
        occursIn ("#### 📝 Suggested PR Title:\n" ++ codeBlock v.improved_title)
          (formatToMarkdown v ts))
    ∧ (jsTrim v.improved_commits ≠ "" →
        occursIn ("#### 📋 Suggested Commit Message:\n" ++ codeBlock v.improved_commits)
          (formatToMarkdown v ts))
    ∧ (jsTrim v.improved_description ≠ "" →
        occursIn ("#### 📄 Suggested PR Description:\n" ++ codeBlock v.improved_description)
          (formatToMarkdown v ts)) := by
  refine ⟨?_, ?_, ?_, ?_⟩
  · intro i hi
    have hne : v.issues ≠ [] := by intro hc; rw [hc] at hi; cases hi
    have hib : issuesBlock v.issues = "\n" ++ renderIssues v.issues ++ "\n" := by
      rw [issuesBlock, if_neg hne]
    rw [formatToMarkdown, hib]
    exact occursIn_append_right _ (occursIn_append_right _ (occursIn_append_left _
      (occursIn_append_right _ (occursIn_append_left _ (renderIssues_occursIn hi)))))
  · intro ht
    have hb : (jsTrim v.improved_title != "") = true := by simpa [bne_iff_ne] using ht
    have hhi : hasImprovements v = true := by simp [hasImprovements, hb]
    rw [formatToMarkdown, improvementsBlock, if_pos hhi, if_pos hb]
    exact occursIn_append_right _ (occursIn_append_left _
      (occursIn_append_right _ (occursIn_append_right _
        (occursIn_append_left _ (occursIn_refl
          ("#### 📝 Suggested PR Title:\n" ++ codeBlock v.improved_title))))))
  · intro ht
    have hb : (jsTrim v.improved_commits != "") = true := by simpa [bne_iff_ne] using ht
    have hhi : hasImprovements v = true := by simp [hasImprovements, hb]
    rw [formatToMarkdown, improvementsBlock, if_pos hhi]
    rw [show (if (jsTrim v.improved_commits != "") = true then
          "#### 📋 Suggested Commit Message:\n" ++ codeBlock v.improved_commits
        else "") = "#### 📋 Suggested Commit Message:\n" ++ codeBlock v.improved_commits
      from if_pos hb]
    exact occursIn_append_right _ (occursIn_append_left _
      (occursIn_append_right _ (occursIn_append_left _ (occursIn_refl _))))
  · intro ht
    have hb : (jsTrim v.improved_description != "") = true := by simpa [bne_iff_ne] using ht
    have hhi : hasImprovements v = true := by simp [hasImprovements, hb]
    rw [formatToMarkdown, improvementsBlock, if_pos hhi]
    rw [show (if (jsTrim v.improved_description != "") = true then
          "#### 📄 Suggested PR Description:\n" ++ codeBlock v.improved_description
        else "") = "#### 📄 Suggested PR Description:\n" ++ codeBlock v.improved_description
      from if_pos hb]
    exact occursIn_append_right _ (occursIn_append_left _
      (occursIn_append_left _ (occursIn_refl _)))

/-- Concrete verdict for the amended C8 witness. -/
def c8WitnessVerdict : ValidationResult :=
  { status := "FAIL", issues := ["too long"], improved_title := "feat: x",
    improved_commits := "", improved_description := "", tokenUsage := none }

/-- Witness for the amended C8 at a concrete verdict. -/
theorem formatToMarkdown_only_issues_truncated_witness :
    occursIn (renderIssueLine "too long")
      (formatToMarkdown c8WitnessVerdict "2026-01-01 00:00:00 UTC")
    ∧ occursIn ("#### 📝 Suggested PR Title:\n" ++ codeBlock "feat: x")
      (formatToMarkdown c8WitnessVerdict "2026-01-01 00:00:00 UTC") := by
  constructor
  · exact (formatToMarkdown_only_issues_truncated c8WitnessVerdict
      "2026-01-01 00:00:00 UTC").1 "too long" (by simp [c8WitnessVerdict])
  · exact (formatToMarkdown_only_issues_truncated c8WitnessVerdict
      "2026-01-01 00:00:00 UTC").2.1 (by decide)

/-- Every member of a joined list occurs in the join. -/
theorem jsJoin_occursIn {x sep : String} {l : List String} (h : x ∈ l) :
    occursIn x (jsJoin sep l) := by
  induction l with
  | nil => cases h
  | cons y ys ih =>
    cases h with
    | head =>
      cases ys with
      | nil => exact occursIn_refl x
      | cons z zs =>
        show occursIn x ((x ++ sep) ++ jsJoin sep (z :: zs))
        exact occursIn_append_right _ (occursIn_append_right _ (occursIn_refl x))
    | tail _ hmem =>
      cases ys with
      | nil => cases hmem
      | cons z zs =>
        show occursIn x ((y ++ sep) ++ jsJoin sep (z :: zs))
        exact occursIn_append_left _ (ih hmem)

/-- C7: `generateValidationPrompt` is a pure (hence deterministic) function
of the snapshot and guidelines text whose output contains the PR title,
the PR body — or the placeholder `No description provided` when the body
is empty — and, for each commit, its message together with its author
name; and it draws nothing from the snapshot's file-level diff data: two
snapshots differing only in `files` and `diffStats` produce the identical
prompt, so no filename, addition/deletion count or line count from the
snapshot can appear through them. -/
theorem generateValidationPrompt_contents (prData : PRData) (guidelines : String) :
    occursIn prData.title (generateValidationPrompt prData guidelines)
    ∧ (prData.body = "" →
        occursIn "No description provided" (generateValidationPrompt prData guidelines))
    ∧ (prData.body ≠ "" →
        occursIn prData.body (generateValidationPrompt prData guidelines))
    ∧ (∀ c ∈ prData.commits,
        occursIn (commitLine c) (generateValidationPrompt prData guidelines))
    ∧ (∀ files₁ files₂ ds₁ ds₂,
        generateValidationPrompt
            { prData with files := files₁, diffStats := ds₁ } guidelines
          = generateValidationPrompt
            { prData with files := files₂, diffStats := ds₂ } guidelines) := by
  refine ⟨?_, ?_, ?_, ?_, ?_⟩
  · rw [generateValidationPrompt]
    exact occursIn_append_right _ (occursIn_append_right _ (occursIn_append_right _
      (occursIn_append_right _ (occursIn_append_right _ (occursIn_append_right _
        (occursIn_append_right _ (occursIn_append_left _ (occursIn_refl _))))))))
  · intro hb
    rw [generateValidationPrompt, if_pos hb]
    exact occursIn_append_right _ (occursIn_append_right _ (occursIn_append_right _
      (occursIn_append_right _ (occursIn_append_right _
        (occursIn_append_left _ (occursIn_refl _))))))
  · intro hb
    rw [generateValidationPrompt, if_neg hb]
    exact occursIn_append_right _ (occursIn_append_right _ (occursIn_append_right _
      (occursIn_append_right _ (occursIn_append_right _
        (occursIn_append_left _ (occursIn_refl _))))))
  · intro c hc
    rw [generateValidationPrompt]
    exact occursIn_append_right _ (occursIn_append_right _ (occursIn_append_right _
      (occursIn_append_left _
        (jsJoin_occursIn (List.mem_map_of_mem commitLine hc)))))
  · intro files₁ files₂ ds₁ ds₂
    rfl

/-- Concrete snapshot for the C7 witness. -/
def c7Snapshot : PRData :=
  { number := 5
    title := "feat: add validator"
    body := ""
    commits :=
      [{ sha := "abc"
         message := "fix stuff"
         author := { name := "Alice", email := "a@example.com", date := "2026-01-01" } }]
    files :=
      [{ filename := "src/x.ts", status := "modified", additions := 3,
         deletions := 1, changes := 4, patch := none }]
    diffStats := { totalAdditions := 3, totalDeletions := 1, totalChanges := 4,
                   filesChanged := 1 }
    author := some "alice" }

/-- Witness for C7 at a concrete snapshot: its title and sole commit line
occur in the prompt, and so does the empty-body placeholder. -/
theorem generateValidationPrompt_contents_witness :
    occursIn "feat: add validator" (generateValidationPrompt c7Snapshot "G")
    ∧ occursIn "No description provided" (generateValidationPrompt c7Snapshot "G")
    ∧ occursIn
        (commitLine
          { sha := "abc"
            message := "fix stuff"
            author := { name := "Alice", email := "a@example.com", date := "2026-01-01" } })
        (generateValidationPrompt c7Snapshot "G") := by
  refine ⟨?_, ?_, ?_⟩
  · exact (generateValidationPrompt_contents c7Snapshot "G").1
  · exact (generateValidationPrompt_contents c7Snapshot "G").2.1 rfl
  · exact (generateValidationPrompt_contents c7Snapshot "G").2.2.2.1 _ (by simp [c7Snapshot])
